import Mathlib

/-!
Verification of `src/lib/huggingface.ts` (the `HuggingFaceService` class).

The service is modelled by pure functions.  Each public operation takes its
JavaScript inputs plus an explicit outcome value for every external effect it
performs (the remote text-generation / visual-question-answering call, the
asynchronous file read).  Host functions of the JavaScript runtime that the
code calls but does not define — `Date.parse`, `JSON.parse`,
`JSON.stringify` — are abstracted as function parameters; everything the
repository itself computes (regular-expression tests, truthiness filtering,
string assembly, fallback construction) is embedded concretely.
Prompt strings are built by the source only to be sent to the remote model;
they never influence the returned value and are not reproduced here.
-/

namespace HF

/-- JavaScript values as they occur in this service: JSON-like data used for
dataset rows, analysis results and the `data` field of `AIResponse`. -/
inductive Json where
  | jNull
  | jBool (b : Bool)
  | jNum (n : Int)
  | jStr (s : String)
  | jArr (elems : List Json)
  | jObj (fields : List (String × Json))

/-- JavaScript truthiness of a value (`val` in `filter(val => val)`).
Empty strings, `0`, `false` and `null` are falsy; arrays and objects are
always truthy. -/
def Json.truthy : Json → Bool
  | .jNull => false
  | .jBool b => b
  | .jNum n => n != 0
  | .jStr s => !s.isEmpty
  | .jArr _ => true
  | .jObj _ => true

mutual

/-- JavaScript `String(val)` conversion, as applied by the pattern tests in
`generateFallbackAnalysis`. -/
def Json.jsToString : Json → String
  | .jNull => "null"
  | .jBool b => if b then "true" else "false"
  | .jNum n => toString n
  | .jStr s => s
  | .jArr xs => String.intercalate "," (jsToStringElems xs)
  | .jObj _ => "[object Object]"

/-- Elements of `String(array)` (i.e. `array.join(',')`): `null` elements
render as the empty string. -/
def jsToStringElems : List Json → List String
  | [] => []
  | j :: js =>
      (match j with
       | .jNull => ""
       | j' => Json.jsToString j') :: jsToStringElems js

end

/-- A dataset row: a JavaScript object, i.e. an association list from column
names to values (keys in insertion order, as `Object.keys` enumerates them). -/
def Row := List (String × Json)

/-- JavaScript property access `row[col]`: `none` models `undefined`
(absent key). -/
def rowGet (r : Row) (col : String) : Option Json :=
  (List.find? (fun p => p.1 == col) r).map (fun p => p.2)

/-- `Object.keys` of a row. -/
def rowKeys (r : Row) : List String := r.map (fun p => p.1)

/-- `Object.keys(data[0] || {})`: the column names of the dataset. -/
def columnsOf (data : List Row) : List String :=
  rowKeys ((data.head?).getD [])

/-- JavaScript `\s` (whitespace class) restricted to the characters that can
occur here; `\S` is its negation. -/
def isJsSpace (c : Char) : Bool :=
  c == ' ' || c == '\t' || c == '\n' || c == '\r' || c == '\x0b' || c == '\x0c' ||
  c == '\u00A0' || c == '\uFEFF'

def nonSpace (c : Char) : Bool := !isJsSpace c

/-- Backtracking matcher for `p+` followed by continuation `k`: consumes one
or more characters satisfying `p`, then the rest must satisfy `k`. -/
def plusThen (p : Char → Bool) (k : List Char → Bool) : List Char → Bool
  | [] => false
  | c :: cs => p c && (k cs || plusThen p k cs)

/-- Does `f` hold of some suffix of the list?  (Regex `test` tries a match at
every starting position.) -/
def existsSuffix (f : List Char → Bool) : List Char → Bool
  | [] => f []
  | c :: cs => f (c :: cs) || existsSuffix f cs

/-- Match of `\S+@\S+\.\S+` starting at the head of the list (the email
pattern of `generateFallbackAnalysis`). -/
def emailAt (l : List Char) : Bool :=
  plusThen nonSpace
    (fun l1 =>
      match l1 with
      | '@' :: l2 =>
          plusThen nonSpace
            (fun l3 =>
              match l3 with
              | '.' :: c :: _ => nonSpace c
              | _ => false) l2
      | _ => false) l

/-- `/\S+@\S+\.\S+/.test(s)`. -/
def emailTest (s : String) : Bool := existsSuffix emailAt s.toList

/-- The character class `[\d\s\-\(\)]` of the phone pattern. -/
def phoneClass (c : Char) : Bool :=
  c.isDigit || isJsSpace c || c == '-' || c == '(' || c == ')'

/-- `n` consecutive characters satisfying `p` at the head of the list. -/
def repeatAtLeast (p : Char → Bool) : Nat → List Char → Bool
  | 0, _ => true
  | _ + 1, [] => false
  | n + 1, c :: cs => p c && repeatAtLeast p n cs

/-- Match of `[\+]?[1-9]?[\d\s\-\(\)]{7,15}` starting at the head of the
list.  A `{7,15}` repetition has a match exactly when 7 class characters are
available, so only the lower bound is tested. -/
def phoneAt (l : List Char) : Bool :=
  let opt19 : List Char → Bool := fun l1 =>
    repeatAtLeast phoneClass 7 l1 ||
    (match l1 with
     | c :: cs => (c.isDigit && c != '0') && repeatAtLeast phoneClass 7 cs
     | [] => false)
  opt19 l ||
  (match l with
   | '+' :: cs => opt19 cs
   | _ => false)

/-- `/[\+]?[1-9]?[\d\s\-\(\)]{7,15}/.test(s)`. -/
def phoneTest (s : String) : Bool := existsSuffix phoneAt s.toList

/-- `data.slice(0, 10).map(row => row[col]).filter(val => val)`: the sampled
values of a column — at most the first 10 rows, absent (`undefined`, falsy)
and other falsy values removed. -/
def sampleColumn (data : List Row) (col : String) : List Json :=
  (((data.take 10).map (fun r => rowGet r col)).filterMap id).filter Json.truthy

/-- `generateFallbackAnalysis(data)`.  `dateParse s` abstracts the host
expression `!isNaN(Date.parse(s))`. -/
def generateFallbackAnalysis (dateParse : String → Bool) (data : List Row) : Json :=
  if data.isEmpty then .jObj [] else
  let columns := columnsOf data
  let emails := columns.filter
    (fun col => (sampleColumn data col).any (fun v => emailTest v.jsToString))
  let phones := columns.filter
    (fun col => (sampleColumn data col).any (fun v => phoneTest v.jsToString))
  let dates := columns.filter
    (fun col => (sampleColumn data col).any (fun v => dateParse v.jsToString))
  .jObj
    [("quality_issues", .jArr []),
     ("cleaning_recommendations", .jArr
       [.jStr "Remove empty rows", .jStr "Trim whitespace",
        .jStr "Handle missing values"]),
     ("column_analysis", .jObj []),
     ("patterns_detected", .jObj
       [("emails", .jArr (emails.map .jStr)),
        ("phones", .jArr (phones.map .jStr)),
        ("dates", .jArr (dates.map .jStr)),
        ("addresses", .jArr [])])]

/-- Field lookup on a JSON object (property access on a plain object). -/
def jsonField : Json → String → Option Json
  | .jObj fields, k => (List.find? (fun p => p.1 == k) fields).map (fun p => p.2)
  | _, _ => none

/-- The `patterns_detected.<name>` field of an analysis object. -/
def patternsField (j : Json) (name : String) : Option Json :=
  (jsonField j "patterns_detected").bind (fun p => jsonField p name)

/-- The `patterns_detected.<name>` array of an analysis object, as a list
(empty when absent or not an array). -/
def detectedColumns (j : Json) (name : String) : List Json :=
  match patternsField j name with
  | some (.jArr l) => l
  | _ => []

/-- The `AIResponse` envelope: `{ success: boolean, data?: any,
error?: string }`. -/
structure AIResponse where
  success : Bool
  data : Option Json := none
  error : Option String := none

/-- Outcome of one remote text-generation call: it either resolves — with an
optional `generated_text` field — or throws. -/
inductive TextGenResult where
  | ok (generatedText : Option String)
  | err

/-- Outcome of one remote visual-question-answering call: it either resolves
— with an optional `answer` field — or throws. -/
inductive VqaResult where
  | ok (answer : Option String)
  | err

/-- Outcome of the asynchronous `FileReader` read in `fileToBase64`: the
produced data URL, or a read failure (rejected promise). -/
inductive FileReadResult where
  | ok (dataUrl : String)
  | err

/-- `enhanceOCRText(extractedText, imageContext?)`.  `remote` is the outcome
of the `hf.textGeneration` call; `imageContext` only enters the prompt. -/
def enhanceOCRText (extractedText : String) (imageContext : Option String)
    (remote : TextGenResult) : AIResponse :=
  match remote with
  | .ok gt =>
      -- data: response.generated_text?.trim() || extractedText
      let t := (gt.map String.trim).getD ""
      { success := true,
        data := some (.jStr (if t.isEmpty then extractedText else t)) }
  | .err =>
      { success := false,
        error := some "Failed to enhance OCR text",
        data := some (.jStr extractedText) }

/-- The string `'{}'` substituted for an absent or empty `generated_text`
before `JSON.parse`. -/
def emptyJsonText : String := "\x7b\x7d"

/-- `response.generated_text || '{}'`: the only falsy string is the empty
one, so an absent or empty `generated_text` is replaced by `'{}'`. -/
def generatedOrEmpty (gt : Option String) : String :=
  match gt with
  | some s => if s.isEmpty then emptyJsonText else s
  | none => emptyJsonText

/-- `cleanAndStructureData(data, filename, fileType)`.  `jsonParse s`
abstracts the host `JSON.parse` (`none` models a thrown `SyntaxError`);
`dateParse` is passed through to the fallback analysis; `remote` is the
outcome of the `hf.textGeneration` call.  `filename` and `fileType` (and the
sliced data preview) only enter the prompt. -/
def cleanAndStructureData (dateParse : String → Bool)
    (jsonParse : String → Option Json) (data : List Row)
    (filename fileType : String) (remote : TextGenResult) : AIResponse :=
  match remote with
  | .ok gt =>
      -- JSON.parse(response.generated_text || '{}'), with the local
      -- fallback analysis on a parse failure
      match jsonParse (generatedOrEmpty gt) with
      | some analysisResult => { success := true, data := some analysisResult }
      | none =>
          { success := true,
            data := some (generateFallbackAnalysis dateParse data) }
  | .err =>
      { success := false,
        error := some "Failed to analyze data",
        data := some (generateFallbackAnalysis dateParse data) }

/-- `createDataSummary(data, filename)`.  `stringify rows` abstracts the host
`JSON.stringify(rows, null, 2)`. -/
def createDataSummary (stringify : List Row → String) (data : List Row)
    (filename : String) : String :=
  if data.isEmpty then "No data available" else
  let columns := columnsOf data
  let sampleRows := data.take 3
  "Dataset: " ++ filename ++ "\nRows: " ++ toString data.length ++
    "\nColumns: " ++ String.intercalate ", " columns ++
    "\nSample Data: " ++ stringify sampleRows

/-- `generateChatResponse(userMessage, dataContext, filename)`.  The data
summary only enters the prompt; `remote` is the outcome of the
`hf.textGeneration` call. -/
def generateChatResponse (userMessage : String) (dataContext : List Row)
    (filename : String) (stringify : List Row → String)
    (remote : TextGenResult) : AIResponse :=
  let _dataSummary := createDataSummary stringify dataContext filename
  match remote with
  | .ok gt =>
      let t := (gt.map String.trim).getD ""
      { success := true,
        data := some (.jStr (if t.isEmpty then
          "I'm here to help analyze your data. Could you please rephrase your question?"
          else t)) }
  | .err =>
      { success := false,
        error := some "Failed to generate response",
        data := some (.jStr "I'm experiencing some technical difficulties. Please try again.") }

/-- JavaScript `str.split(',')` on the character list of the string. -/
def splitOnComma : List Char → List (List Char)
  | [] => [[]]
  | c :: cs =>
      if c = ',' then [] :: splitOnComma cs
      else
        match splitOnComma cs with
        | [] => [[c]]
        | h :: t => (c :: h) :: t

/-- The synchronous core of `fileToBase64`: `result.split(',')[1]` applied to
the data URL delivered by the reader (`none` models `undefined` when the
string has no comma). -/
def fileToBase64Extract (dataUrl : String) : Option String :=
  match splitOnComma dataUrl.toList with
  | _ :: second :: _ => some (String.mk second)
  | _ => none

/-- `analyzeImageForOCR(imageFile)`.  `fileRead` is the outcome of the
`fileToBase64` file read (a rejection is caught by the operation's handler);
`remote` is the outcome of the `hf.visualQuestionAnswering` call. -/
def analyzeImageForOCR (fileRead : FileReadResult) (remote : VqaResult) :
    AIResponse :=
  match fileRead with
  | .ok dataUrl =>
      let _imageBase64 := fileToBase64Extract dataUrl
      match remote with
      | .ok ans =>
          -- data: response.answer || ''
          { success := true, data := some (.jStr (ans.getD "")) }
      | .err =>
          { success := false,
            error := some "Failed to analyze image",
            data := some (.jStr "") }
  | .err =>
      { success := false,
        error := some "Failed to analyze image",
        data := some (.jStr "") }

/-! ### Theorems -/

/-- Claim C3: for every `extractedText` and optional `imageContext`, when the
remote call in `enhanceOCRText` throws, the operation returns exactly
`{success: false, error: "Failed to enhance OCR text", data: extractedText}`
— the `data` field is the original input string unchanged. -/
theorem enhanceOCRText_err_is_passthrough (extractedText : String)
    (imageContext : Option String) :
    enhanceOCRText extractedText imageContext .err =
      { success := false,
        error := some "Failed to enhance OCR text",
        data := some (.jStr extractedText) } := rfl

/-- Claim C2: each of the four public operations is a total function of its
inputs and of the outcome of every external effect it performs (remote call,
file read) — so every invocation, including one whose remote call or file
read fails, yields an `AIResponse`, and no exception escapes.  Moreover the
result always has one of exactly two shapes: success with no error, or
failure with the operation's fixed error string. -/
theorem publicOps_always_resolve :
    (∀ t ctx r, (enhanceOCRText t ctx r).success = true ∧
        (enhanceOCRText t ctx r).error = none ∨
      (enhanceOCRText t ctx r).success = false ∧
        (enhanceOCRText t ctx r).error = some "Failed to enhance OCR text") ∧
    (∀ dp jp data f ft r,
      (cleanAndStructureData dp jp data f ft r).success = true ∧
        (cleanAndStructureData dp jp data f ft r).error = none ∨
      (cleanAndStructureData dp jp data f ft r).success = false ∧
        (cleanAndStructureData dp jp data f ft r).error =
          some "Failed to analyze data") ∧
    (∀ u dc f st r, (generateChatResponse u dc f st r).success = true ∧
        (generateChatResponse u dc f st r).error = none ∨
      (generateChatResponse u dc f st r).success = false ∧
        (generateChatResponse u dc f st r).error =
          some "Failed to generate response") ∧
    (∀ fr vr, (analyzeImageForOCR fr vr).success = true ∧
        (analyzeImageForOCR fr vr).error = none ∨
      (analyzeImageForOCR fr vr).success = false ∧
        (analyzeImageForOCR fr vr).error = some "Failed to analyze image") := by
  refine ⟨?_, ?_, ?_, ?_⟩
  · intro t ctx r
    cases r <;> simp [enhanceOCRText]
  · intro dp jp data f ft r
    cases r with
    | err => simp [cleanAndStructureData]
    | ok gt =>
        cases h : jp (generatedOrEmpty gt) <;>
          simp [cleanAndStructureData, h]
  · intro u dc f st r
    cases r <;> simp [generateChatResponse]
  · intro fr vr
    cases fr with
    | err => simp [analyzeImageForOCR]
    | ok u => cases vr <;> simp [analyzeImageForOCR]

/-- Claim C4: whenever a public operation returns `success = false`, the
`data` field is present and holds the operation-specific fallback: the
original `extractedText`, `generateFallbackAnalysis(data)`, the fixed
apology string, or the empty string. -/
theorem failure_always_carries_fallback_data :
    (∀ t ctx r, (enhanceOCRText t ctx r).success = false →
      (enhanceOCRText t ctx r).data = some (.jStr t)) ∧
    (∀ dp jp data f ft r,
      (cleanAndStructureData dp jp data f ft r).success = false →
      (cleanAndStructureData dp jp data f ft r).data =
        some (generateFallbackAnalysis dp data)) ∧
    (∀ u dc f st r, (generateChatResponse u dc f st r).success = false →
      (generateChatResponse u dc f st r).data =
        some (.jStr "I'm experiencing some technical difficulties. Please try again.")) ∧
    (∀ fr vr, (analyzeImageForOCR fr vr).success = false →
      (analyzeImageForOCR fr vr).data = some (.jStr "")) := by
  refine ⟨?_, ?_, ?_, ?_⟩
  · intro t ctx r h
    cases r with
    | err => rfl
    | ok gt => simp [enhanceOCRText] at h
  · intro dp jp data f ft r h
    cases r with
    | err => rfl
    | ok gt =>
        cases hp : jp (generatedOrEmpty gt) <;>
          simp [cleanAndStructureData, hp] at h
  · intro u dc f st r h
    cases r with
    | err => rfl
    | ok gt => simp [generateChatResponse] at h
  · intro fr vr h
    cases fr with
    | err => rfl
    | ok u =>
        cases vr with
        | err => rfl
        | ok a => simp [analyzeImageForOCR] at h

/-- Witness for claim C4: the failure responses at concrete inputs carry the
concrete fallback values. -/
theorem failure_always_carries_fallback_data_spot :
    (enhanceOCRText "abc" none .err).data = some (.jStr "abc") ∧
    (cleanAndStructureData (fun _ => false) (fun _ => none) [] "f.csv" "csv"
        .err).data =
      some (generateFallbackAnalysis (fun _ => false) []) ∧
    (generateChatResponse "hi" [] "f.csv" (fun _ => "") .err).data =
      some (.jStr "I'm experiencing some technical difficulties. Please try again.") ∧
    (analyzeImageForOCR .err .err).data = some (.jStr "") :=
  ⟨failure_always_carries_fallback_data.1 "abc" none .err rfl,
   failure_always_carries_fallback_data.2.1 (fun _ => false) (fun _ => none)
     [] "f.csv" "csv" .err rfl,
   failure_always_carries_fallback_data.2.2.1 "hi" [] "f.csv" (fun _ => "")
     .err rfl,
   failure_always_carries_fallback_data.2.2.2 .err .err rfl⟩

/-- Shared lemma: a successful remote call whose non-empty reply fails to
parse makes `cleanAndStructureData` return the fallback analysis with
`success = true`. -/
theorem cleanAndStructureData_parse_failure (dp : String → Bool)
    (jp : String → Option Json) (data : List Row) (filename fileType s : String)
    (hs : s ≠ "") (hp : jp s = none) :
    cleanAndStructureData dp jp data filename fileType (.ok (some s)) =
      { success := true,
        data := some (generateFallbackAnalysis dp data),
        error := none } := by
  have he : s.isEmpty = false := by
    by_contra h
    exact hs ((String.isEmpty_iff s).mp (by revert h; cases s.isEmpty <;> simp))
  simp [cleanAndStructureData, generatedOrEmpty, he, hp]

/-- Claim C1: for every `data`, `filename` and `fileType`, when the remote
text-generation call in `cleanAndStructureData` succeeds but the text it
returns is not valid JSON (`JSON.parse` fails on it), the operation returns
`{success: true, data: generateFallbackAnalysis(data)}`. -/
theorem cleanAndStructureData_nonjson_uses_fallback (dp : String → Bool)
    (jp : String → Option Json) (data : List Row) (filename fileType s : String)
    (hs : s ≠ "") (hp : jp s = none) :
    cleanAndStructureData dp jp data filename fileType (.ok (some s)) =
      { success := true,
        data := some (generateFallbackAnalysis dp data),
        error := none } :=
  cleanAndStructureData_parse_failure dp jp data filename fileType s hs hp

/-- Witness for claim C1: a concrete non-JSON reply at a concrete dataset
yields the locally computed fallback analysis. -/
theorem cleanAndStructureData_nonjson_uses_fallback_spot :
    cleanAndStructureData (fun _ => false) (fun _ => none)
        [[("a", Json.jStr "x")]] "f.csv" "csv" (.ok (some "not json")) =
      { success := true,
        data := some (generateFallbackAnalysis (fun _ => false)
          [[("a", Json.jStr "x")]]),
        error := none } :=
  cleanAndStructureData_nonjson_uses_fallback (fun _ => false) (fun _ => none)
    [[("a", Json.jStr "x")]] "f.csv" "csv" "not json" (by decide) rfl

/-- Claim C8: when `cleanAndStructureData` is called with an empty data
array, the `data` field of its result is `generateFallbackAnalysis([]) = {}`
(the empty object) both on the error path (remote call throws) and on the
success-with-fallback path (remote output unparsable as JSON). -/
theorem cleanAndStructureData_empty_data_empty_object (dp : String → Bool)
    (jp : String → Option Json) (filename fileType s : String) :
    (cleanAndStructureData dp jp [] filename fileType .err).data =
      some (.jObj []) ∧
    (s ≠ "" → jp s = none →
      (cleanAndStructureData dp jp [] filename fileType (.ok (some s))).data =
        some (.jObj [])) := by
  refine ⟨rfl, fun hs hp => ?_⟩
  rw [cleanAndStructureData_parse_failure dp jp [] filename fileType s hs hp]
  rfl

/-- Witness for claim C8: the empty-data result is the empty object at a
concrete non-JSON reply. -/
theorem cleanAndStructureData_empty_data_empty_object_spot :
    (cleanAndStructureData (fun _ => false) (fun _ => none) [] "f.csv" "csv"
        .err).data = some (.jObj []) ∧
    (cleanAndStructureData (fun _ => false) (fun _ => none) [] "f.csv" "csv"
        (.ok (some "oops"))).data = some (.jObj []) :=
  ⟨(cleanAndStructureData_empty_data_empty_object (fun _ => false)
      (fun _ => none) "f.csv" "csv" "oops").1,
   (cleanAndStructureData_empty_data_empty_object (fun _ => false)
      (fun _ => none) "f.csv" "csv" "oops").2 (by decide) rfl⟩

/-- Claim C10: when the remote text-generation call in
`cleanAndStructureData` succeeds but `generated_text` is absent or the empty
string, the substituted string `'{}'` is parsed and the operation returns
`{success: true, data: {}}`; the local fallback analysis is not invoked (the
result does not depend on `data`). -/
theorem cleanAndStructureData_empty_text_parses_empty_object
    (dp : String → Bool) (jp : String → Option Json) (data : List Row)
    (filename fileType : String) (gt : Option String)
    (hgt : gt = none ∨ gt = some "")
    (hjp : jp emptyJsonText = some (.jObj [])) :
    cleanAndStructureData dp jp data filename fileType (.ok gt) =
      { success := true, data := some (.jObj []), error := none } := by
  rcases hgt with h | h <;> subst h <;>
    simp [cleanAndStructureData, generatedOrEmpty, String.isEmpty, hjp]

/-- Witness for claim C10: with a parser sending `'{}'` to the empty object,
an absent `generated_text` yields `{success: true, data: {}}` even on a
nonempty dataset. -/
theorem cleanAndStructureData_empty_text_parses_empty_object_spot :
    cleanAndStructureData (fun _ => false) (fun _ => some (.jObj []))
        [[("a", Json.jStr "x")]] "f.csv" "csv" (.ok none) =
      { success := true, data := some (.jObj []), error := none } :=
  cleanAndStructureData_empty_text_parses_empty_object (fun _ => false)
    (fun _ => some (.jObj [])) [[("a", Json.jStr "x")]] "f.csv" "csv" none
    (Or.inl rfl) rfl

/-- `split(',')` on a comma-free list yields that list as its only part. -/
theorem splitOnComma_of_not_mem (l : List Char) (h : ∀ c ∈ l, c ≠ ',') :
    splitOnComma l = [l] := by
  induction l with
  | nil => rfl
  | cons c cs ih =>
      have hc : ¬c = ',' := h c (List.mem_cons_self c cs)
      have ihcs := ih (fun x hx => h x (List.mem_cons_of_mem c hx))
      simp [splitOnComma, hc, ihcs]

/-- `split(',')` peels off a comma-free leading part at the first comma. -/
theorem splitOnComma_append (a b : List Char) (ha : ∀ c ∈ a, c ≠ ',') :
    splitOnComma (a ++ ',' :: b) = a :: splitOnComma b := by
  induction a with
  | nil => simp [splitOnComma]
  | cons c cs ih =>
      have hc : ¬c = ',' := ha c (List.mem_cons_self c cs)
      have ihcs := ih (fun x hx => ha x (List.mem_cons_of_mem c hx))
      simp [splitOnComma, hc, ihcs]

/-- Claim C6: on a data URL as produced by `readAsDataURL` — a comma-free
prefix (the `data:<mediatype>;base64` header), one comma, then a comma-free
base64 payload — the `fileToBase64` extraction `result.split(',')[1]` strips
everything up to and including the first comma and returns the remainder. -/
theorem fileToBase64Extract_strips_header (pre post : String)
    (hpre : ∀ c ∈ pre.toList, c ≠ ',') (hpost : ∀ c ∈ post.toList, c ≠ ',') :
    fileToBase64Extract (pre ++ "," ++ post) = some post := by
  have hl : (pre ++ "," ++ post).toList = pre.toList ++ ',' :: post.toList := by
    show (pre ++ "," ++ post).data = pre.data ++ ',' :: post.data
    simp [String.data_append]
  unfold fileToBase64Extract
  rw [hl, splitOnComma_append pre.toList post.toList hpre,
    splitOnComma_of_not_mem post.toList hpost]
  rfl

/-- Witness for claim C6: the payload of
`"data:image/png;base64,AAAA"` is `"AAAA"`. -/
theorem fileToBase64Extract_strips_header_spot :
    fileToBase64Extract "data:image/png;base64,AAAA" = some "AAAA" :=
  fileToBase64Extract_strips_header "data:image/png;base64" "AAAA"
    (by decide) (by decide)

/-- Claim C7: `createDataSummary` of an empty data array is exactly
`"No data available"`; for a non-empty array the summary's `Rows:` value is
the full input length `data.length` (independent of the preview), its column
list is the comma-joined keys of the first record, and the sample preview
serializes `data.take 3`, which holds at most the first 3 records. -/
theorem createDataSummary_shape (stringify : List Row → String)
    (data : List Row) (filename : String) :
    createDataSummary stringify [] filename = "No data available" ∧
    (data ≠ [] →
      createDataSummary stringify data filename =
        "Dataset: " ++ filename ++ "\nRows: " ++ toString data.length ++
          "\nColumns: " ++ String.intercalate ", " (columnsOf data) ++
          "\nSample Data: " ++ stringify (data.take 3) ∧
      (data.take 3).length ≤ 3) := by
  refine ⟨rfl, fun h => ⟨?_, ?_⟩⟩
  · cases data with
    | nil => exact absurd rfl h
    | cons r rs => rfl
  · simp [List.length_take]

/-- Witness for claim C7: a concrete one-row dataset produces the expected
summary block with `Rows: 1` and a preview of at most 3 records. -/
theorem createDataSummary_shape_spot :
    createDataSummary (fun _ => "S") [[("a", Json.jStr "1")]] "f.csv" =
      "Dataset: f.csv\nRows: 1\nColumns: a\nSample Data: S" ∧
    ([[("a", Json.jStr "1")]].take 3).length ≤ 3 :=
  (createDataSummary_shape (fun _ => "S") [[("a", Json.jStr "1")]] "f.csv").2
    (List.cons_ne_nil _ _)

/-- Claim C9: `generateFallbackAnalysis` declares the
`patterns_detected.addresses` field but no code path ever adds a column name
to it: for every non-empty input array it is the empty array (for an empty
input the whole result is the empty object `{}`). -/
theorem fallback_addresses_never_populated (dp : String → Bool)
    (data : List Row) (h : data ≠ []) :
    patternsField (generateFallbackAnalysis dp data) "addresses" =
      some (.jArr []) := by
  cases data with
  | nil => exact absurd rfl h
  | cons r rs => rfl

/-- Witness for claim C9: the addresses list is empty at a concrete dataset
whose column values *do* look like street addresses. -/
theorem fallback_addresses_never_populated_spot :
    patternsField
        (generateFallbackAnalysis (fun _ => false)
          [[("addr", Json.jStr "42 Main Street")]]) "addresses" =
      some (.jArr []) :=
  fallback_addresses_never_populated (fun _ => false)
    [[("addr", Json.jStr "42 Main Street")]] (List.cons_ne_nil _ _)

/-- The `patterns_detected.emails` list of a non-empty fallback analysis is
the filter of the columns by the email test over the sampled values. -/
theorem fallback_detected_emails (dp : String → Bool) (data : List Row)
    (h : data ≠ []) :
    detectedColumns (generateFallbackAnalysis dp data) "emails" =
      ((columnsOf data).filter
        (fun col => (sampleColumn data col).any
          (fun v => emailTest v.jsToString))).map .jStr := by
  cases data with
  | nil => exact absurd rfl h
  | cons r rs => rfl

/-- The `patterns_detected.dates` list of a non-empty fallback analysis is
the filter of the columns by the date test over the sampled values. -/
theorem fallback_detected_dates (dp : String → Bool) (data : List Row)
    (h : data ≠ []) :
    detectedColumns (generateFallbackAnalysis dp data) "dates" =
      ((columnsOf data).filter
        (fun col => (sampleColumn data col).any
          (fun v => dp v.jsToString))).map .jStr := by
  cases data with
  | nil => exact absurd rfl h
  | cons r rs => rfl

/-- Claim C5: in `generateFallbackAnalysis` each column is classified from
its sampled values (`data.slice(0,10).map(row => row[col]).filter(val =>
val)`, i.e. up to 10 truthy values from the first 10 rows).  A column whose
sampled values all match the email pattern `\S+@\S+\.\S+` (sample non-empty)
appears in `patterns_detected.emails`; a column whose sampled values all
parse as dates — `dp` abstracts `!isNaN(Date.parse(·))`, true on ISO date
strings — appears in `patterns_detected.dates`; a column none of whose
sampled values matches either appears in neither list. -/
theorem fallback_pattern_detection (dp : String → Bool) (data : List Row)
    (col : String) (hcol : col ∈ columnsOf data) (hdata : data ≠ []) :
    ((sampleColumn data col ≠ [] ∧
        ∀ v ∈ sampleColumn data col, emailTest v.jsToString = true) →
      Json.jStr col ∈
        detectedColumns (generateFallbackAnalysis dp data) "emails") ∧
    ((sampleColumn data col ≠ [] ∧
        ∀ v ∈ sampleColumn data col, dp v.jsToString = true) →
      Json.jStr col ∈
        detectedColumns (generateFallbackAnalysis dp data) "dates") ∧
    ((∀ v ∈ sampleColumn data col,
        emailTest v.jsToString = false ∧ dp v.jsToString = false) →
      Json.jStr col ∉
          detectedColumns (generateFallbackAnalysis dp data) "emails" ∧
        Json.jStr col ∉
          detectedColumns (generateFallbackAnalysis dp data) "dates") := by
  have he := fallback_detected_emails dp data hdata
  have hd := fallback_detected_dates dp data hdata
  refine ⟨?_, ?_, ?_⟩
  · rintro ⟨hne, hall⟩
    rw [he]
    apply List.mem_map_of_mem
    rw [List.mem_filter]
    refine ⟨hcol, ?_⟩
    rw [List.any_eq_true]
    obtain ⟨v, hv⟩ := List.exists_mem_of_ne_nil _ hne
    exact ⟨v, hv, hall v hv⟩
  · rintro ⟨hne, hall⟩
    rw [hd]
    apply List.mem_map_of_mem
    rw [List.mem_filter]
    refine ⟨hcol, ?_⟩
    rw [List.any_eq_true]
    obtain ⟨v, hv⟩ := List.exists_mem_of_ne_nil _ hne
    exact ⟨v, hv, hall v hv⟩
  · intro hall
    constructor
    · rw [he]
      intro hmem
      obtain ⟨b, hb, hbeq⟩ := List.mem_map.mp hmem
      obtain rfl : b = col := Json.jStr.inj hbeq
      have hpred := (List.mem_filter.mp hb).2
      rw [List.any_eq_true] at hpred
      obtain ⟨v, hv, hvp⟩ := hpred
      rw [(hall v hv).1] at hvp
      exact Bool.noConfusion hvp
    · rw [hd]
      intro hmem
      obtain ⟨b, hb, hbeq⟩ := List.mem_map.mp hmem
      obtain rfl : b = col := Json.jStr.inj hbeq
      have hpred := (List.mem_filter.mp hb).2
      rw [List.any_eq_true] at hpred
      obtain ⟨v, hv, hvp⟩ := hpred
      rw [(hall v hv).2] at hvp
      exact Bool.noConfusion hvp

/-- Witness for claim C5: in a concrete dataset with an email column, an ISO
date column and a free-text column (dates parsed by a concrete parser that
accepts the ISO string), the email column is detected under `emails`, the
date column under `dates`, and the free-text column under neither. -/
theorem fallback_pattern_detection_spot :
    Json.jStr "email" ∈
      detectedColumns
        (generateFallbackAnalysis (fun s => s == "2024-01-01")
          [[("email", Json.jStr "a@b.co"), ("when", Json.jStr "2024-01-01"),
            ("note", Json.jStr "hi there")]]) "emails" ∧
    Json.jStr "when" ∈
      detectedColumns
        (generateFallbackAnalysis (fun s => s == "2024-01-01")
          [[("email", Json.jStr "a@b.co"), ("when", Json.jStr "2024-01-01"),
            ("note", Json.jStr "hi there")]]) "dates" ∧
    Json.jStr "note" ∉
        detectedColumns
          (generateFallbackAnalysis (fun s => s == "2024-01-01")
            [[("email", Json.jStr "a@b.co"), ("when", Json.jStr "2024-01-01"),
              ("note", Json.jStr "hi there")]]) "emails" ∧
    Json.jStr "note" ∉
        detectedColumns
          (generateFallbackAnalysis (fun s => s == "2024-01-01")
            [[("email", Json.jStr "a@b.co"), ("when", Json.jStr "2024-01-01"),
              ("note", Json.jStr "hi there")]]) "dates" :=
  ⟨(fallback_pattern_detection (fun s => s == "2024-01-01")
      [[("email", Json.jStr "a@b.co"), ("when", Json.jStr "2024-01-01"),
        ("note", Json.jStr "hi there")]] "email" (by decide)
      (List.cons_ne_nil _ _)).1
      ⟨List.ne_nil_of_length_pos (by decide), by decide⟩,
   (fallback_pattern_detection (fun s => s == "2024-01-01")
      [[("email", Json.jStr "a@b.co"), ("when", Json.jStr "2024-01-01"),
        ("note", Json.jStr "hi there")]] "when" (by decide)
      (List.cons_ne_nil _ _)).2.1
      ⟨List.ne_nil_of_length_pos (by decide), by decide⟩,
   (fallback_pattern_detection (fun s => s == "2024-01-01")
      [[("email", Json.jStr "a@b.co"), ("when", Json.jStr "2024-01-01"),
        ("note", Json.jStr "hi there")]] "note" (by decide)
      (List.cons_ne_nil _ _)).2.2 (by decide)⟩

end HF
